import Mathlib

/-!
Verification of the SolidHA problem-detection and deduplication pipeline
(`addons/ha-llm-ops/agent/problems.py` and its collaborators) against its
natural-language specification.  The Python code is shallowly embedded:
JSON-like Python values become the inductive type `Val`, pure functions
become Lean functions, and the stateful orchestrator entry points become
explicit state-passing functions.  External effects (the compiled-regex
search, `re.compile` success, the event clock, the RCA backend response)
are passed in as parameters, exactly as the source treats them as opaque
collaborator objects.
-/

set_option maxHeartbeats 1000000

namespace SolidHA

/-- Python values as produced by `json.loads` (plus `bool`/`int`/`float`
distinctions that the source inspects with `isinstance` / `is`).  Dicts are
association lists with distinct keys, in insertion order. -/
inductive Val where
  | null : Val
  | bool : Bool → Val
  | int : Int → Val
  | float : ℚ → Val
  | str : String → Val
  | list : List Val → Val
  | dict : List (String × Val) → Val

/-- Python truthiness of a value (`bool(v)`). -/
def truthy : Val → Bool
  | .null => false
  | .bool b => b
  | .int n => n != 0
  | .float q => q != 0
  | .str s => s != ""
  | .list xs => !xs.isEmpty
  | .dict kvs => !kvs.isEmpty

/-- `d.get(k)` on a Python dict represented as an association list. -/
def lookupVal : List (String × Val) → String → Option Val
  | [], _ => none
  | kv :: rest, k => if kv.1 = k then some kv.2 else lookupVal rest k

/-- Truthiness of `d.get(k)` (where a missing key gives `None`). -/
def truthyOpt : Option Val → Bool
  | none => false
  | some v => truthy v

/-- `v is False` for an optional Python value: matches only the boolean
singleton `False`, never the numerically equal `0`. -/
def isPyFalse : Option Val → Bool
  | some (.bool false) => true
  | _ => false

/-- `v == s` for an optional Python value compared against a string
literal: true only when the value is an equal `str`. -/
def isStrVal (v : Option Val) (s : String) : Bool :=
  match v with
  | some (.str t) => t == s
  | _ => false

/-- The failure test applied to one dict by `_contains_failure`
(problems.py line 142): `obj.get("error")` truthy, or
`obj.get("success") is False`. -/
def dictMarker (kvs : List (String × Val)) : Bool :=
  truthyOpt (lookupVal kvs "error") || isPyFalse (lookupVal kvs "success")

mutual

/-- Embedding of `_contains_failure` (problems.py lines 132-147): a dict is
checked for the marker and then its values are walked; a non-string
iterable is walked elementwise; strings, bytes and scalars return `False`. -/
def containsFailure : Val → Bool
  | .dict kvs => dictMarker kvs || containsFailureVals kvs
  | .list xs => containsFailureList xs
  | _ => false

def containsFailureList : List Val → Bool
  | [] => false
  | v :: vs => containsFailure v || containsFailureList vs

def containsFailureVals : List (String × Val) → Bool
  | [] => false
  | kv :: kvs => containsFailure kv.2 || containsFailureVals kvs

end

mutual

/-- All dicts reachable from a value by walking dict values and elements of
non-string iterables, the value itself included when it is a dict.  This is
the specification-side notion of reachability used by claim C6. -/
def reachableDicts : Val → List (List (String × Val))
  | .dict kvs => kvs :: reachableDictsVals kvs
  | .list xs => reachableDictsList xs
  | _ => []

def reachableDictsList : List Val → List (List (String × Val))
  | [] => []
  | v :: vs => reachableDicts v ++ reachableDictsList vs

def reachableDictsVals : List (String × Val) → List (List (String × Val))
  | [] => []
  | kv :: kvs => reachableDicts kv.2 ++ reachableDictsVals kvs

end

/-!  ## Event classification (monitor loop, problems.py lines 295-342)

The classification of one decoded event envelope is the inline body of the
`async for` loop.  Python attribute errors (calling `.get` on a non-dict)
are modelled with `Except Unit`: an `.error ()` value corresponds to an
`AttributeError` escaping the loop body, which the source only catches at
the connection level (problems.py line 366).  -/

/-- `obj.get(k)` where `obj` is expected to be a dict; raises
(`AttributeError`) otherwise. -/
def pyGetOpt (v : Val) (k : String) : Except Unit (Option Val) :=
  match v with
  | .dict kvs => .ok (lookupVal kvs k)
  | _ => .error ()

/-- `obj.get(k, d)`. -/
def pyGetD (v : Val) (k : String) (d : Val) : Except Unit Val :=
  (pyGetOpt v k).map (fun o => o.getD d)

/-- Python `a or b`. -/
def pyOr (a b : Val) : Val :=
  if truthy a then a else b

/-- The shared severity rule (problems.py lines 313-319 and 333-339):
`error_log` for an `int` level of at least 40 or a string level whose
upper-case form is ERROR or CRITICAL; any other shape gives no trigger. -/
def severityTrigger (level : Option Val) : Option String :=
  match level with
  | some (.int n) => if n ≥ 40 then some "error_log" else none
  | some (.str s) =>
      if s.toUpper == "ERROR" || s.toUpper == "CRITICAL" then some "error_log"
      else none
  | _ => none

/-- Embedding of the event classification applied to one envelope
(problems.py lines 302-339): reads `event_type` and `data` (default empty
dict), then dispatches on the event kind.  Returns the assigned
`trigger_type`, or `.error ()` when the Python code would raise
`AttributeError` (e.g. a non-dict `data` payload). -/
def classify (event : Val) : Except Unit (Option String) := do
  let etype ← pyGetOpt event "event_type"
  let edata ← pyGetD event "data" (.dict [])
  if isStrVal etype "system_log_event" then
    let level ← pyGetOpt edata "level"
    pure (severityTrigger level)
  else if isStrVal etype "trace" then
    pure (if containsFailure edata then some "automation_failure" else none)
  else if isStrVal etype "state_changed" then
    let ns ← pyGetOpt edata "new_state"
    match pyOr (ns.getD .null) (.dict []) with
    | .dict kvs =>
        pure (if isStrVal (lookupVal kvs "state") "unavailable" then
          some "entity_unavailable" else none)
    | _ => pure none
  else if isStrVal etype "supervisor_event" then
    let ev ← pyGetOpt edata "event"
    if isStrVal ev "addon" then
      let log ← pyGetD edata "data" (.dict [])
      let level ← pyGetOpt log "level"
      pure (severityTrigger level)
    else
      pure none
  else
    pure none

/-- The well-formedness condition under which the classification never
raises: the envelope is a dict, its `data` payload (default empty dict) is
a dict, and — on the supervisor/addon path — the nested `data` payload
(default empty dict) is a dict as well. -/
def wellFormedEvent (event : Val) : Bool :=
  match event with
  | .dict kvs =>
      match (lookupVal kvs "data").getD (.dict []) with
      | .dict dkvs =>
          if isStrVal (lookupVal kvs "event_type") "supervisor_event" &&
              isStrVal (lookupVal dkvs "event") "addon" then
            match (lookupVal dkvs "data").getD (.dict []) with
            | .dict _ => true
            | _ => false
          else true
      | _ => false
  | _ => false

/-!  ## RCA result schema (contracts/rca.py, parse.py)

`RcaResult` is a pydantic model.  Its class body (contracts/rca.py lines
20-35) declares exactly the fields `root_cause`, `impact`, `confidence`
(constrained to the interval from 0 to 1), `candidate_actions` (defaulting
to the empty list), `risk` and `tests` (defaulting to the empty list).
Pydantic's default behaviour ignores unknown keys of the input and exposes
only the declared fields on the validated instance and in `model_dump`. -/

structure CandidateActionM where
  action : String
  rationale : String
deriving DecidableEq

/-- The validated `RcaResult` instance: exactly the fields declared in the
class body of `RcaResult` (contracts/rca.py lines 20-35). -/
structure RcaResultM where
  root_cause : String
  impact : String
  confidence : ℚ
  candidate_actions : List CandidateActionM
  risk : String
  tests : List String
deriving DecidableEq

/-- The field names declared by the `RcaResult` class body. -/
def rcaFields : List String :=
  ["root_cause", "impact", "confidence", "candidate_actions", "risk", "tests"]

def asStr : Val → Option String
  | .str s => some s
  | _ => none

/-- A JSON number accepted for a pydantic `float` field (ints are coerced
to float). -/
def asNum : Val → Option ℚ
  | .int n => some (n : ℚ)
  | .float q => some q
  | _ => none

def parseCandidateAction : Val → Option CandidateActionM
  | .dict kvs => do
      let a ← asStr (← lookupVal kvs "action")
      let r ← asStr (← lookupVal kvs "rationale")
      pure { action := a, rationale := r }
  | _ => none

def parseStrList : Val → Option (List String)
  | .list xs => xs.mapM asStr
  | _ => none

def parseActionList : Val → Option (List CandidateActionM)
  | .list xs => xs.mapM parseCandidateAction
  | _ => none

/-- Schema validation of a decoded JSON value against `RcaResult`
(`RcaResult.model_validate` as invoked by `parse_result`, parse.py lines
16-26): required string fields, `confidence` constrained to the interval
from 0 to 1 (`ge=0.0, le=1.0`), optional lists defaulting to empty, and
unknown keys ignored.  `parse_result` succeeds exactly when the response
text is valid JSON (here: the decoded `Val`) and this validation
succeeds. -/
def validateRca : Val → Option RcaResultM
  | .dict kvs => do
      let rc ← asStr (← lookupVal kvs "root_cause")
      let imp ← asStr (← lookupVal kvs "impact")
      let conf ← asNum (← lookupVal kvs "confidence")
      if 0 ≤ conf ∧ conf ≤ 1 then
        let cas ← match lookupVal kvs "candidate_actions" with
          | none => some []
          | some v => parseActionList v
        let rk ← asStr (← lookupVal kvs "risk")
        let ts ← match lookupVal kvs "tests" with
          | none => some []
          | some v => parseStrList v
        pure { root_cause := rc, impact := imp, confidence := conf,
               candidate_actions := cas, risk := rk, tests := ts }
      else none
  | _ => none

/-- The key/value pairs produced by `model_dump()` on a validated
`RcaResult`: exactly the declared fields. -/
def dumpFields (r : RcaResultM) : List (String × Val) :=
  [("root_cause", .str r.root_cause),
   ("impact", .str r.impact),
   ("confidence", .float r.confidence),
   ("candidate_actions", .list (r.candidate_actions.map (fun a =>
      .dict [("action", .str a.action), ("rationale", .str a.rationale)]))),
   ("risk", .str r.risk),
   ("tests", .list (r.tests.map .str))]

def rcaModelDump (r : RcaResultM) : Val := .dict (dumpFields r)

/-- The canned response of `MockLLM.generate` (llm/mock.py lines 9-20),
transcribed as a decoded JSON value.  It carries `summary` and
`recurrence_pattern` keys in addition to the fields the `RcaResult` class
declares. -/
def mockResponse : Val :=
  .dict
    [("summary", .str "mock summary"),
     ("root_cause", .str "mock root cause"),
     ("impact", .str "mock impact"),
     ("confidence", .float (mkRat 21 50)),
     ("candidate_actions", .list
        [.dict [("action", .str "mock action"),
                ("rationale", .str "because tests")]]),
     ("risk", .str "low"),
     ("tests", .list [.str "test check"]),
     ("recurrence_pattern", .str "mock error")]

/-!  ## Fingerprint validation (analysis/patterns.py lines 66-80)

`validate_pattern` strips the pattern, rejects short or degenerate or
digit-run patterns, and finally requires `re.compile` to succeed; the
compile check is passed in as an oracle `compileOk`.  -/

/-- Python `str.strip()` whitespace test (ASCII whitespace). -/
def isPySpace (c : Char) : Bool :=
  c == ' ' || c == '\t' || c == '\n' || c == '\r' ||
    c == Char.ofNat 11 || c == Char.ofNat 12

def stripChars (cs : List Char) : List Char :=
  ((cs.dropWhile isPySpace).reverse.dropWhile isPySpace).reverse

/-- Python `pattern.strip()`. -/
def pyStrip (s : String) : String := ⟨stripChars s.data⟩

/-- Whether the character list contains a run of at least four consecutive
decimal digits — the semantics of `re.search(r"\d\x7b4,\x7d", text)`.
`k` counts the digits matched so far. -/
def digitRun : List Char → Nat → Bool
  | [], _ => false
  | c :: rest, k =>
      if c.isDigit then
        if k + 1 ≥ 4 then true else digitRun rest (k + 1)
      else digitRun rest 0

/-- Embedding of `validate_pattern` (analysis/patterns.py lines 66-80).
`compileOk` is the `re.compile`-succeeds oracle. -/
def validatePattern (compileOk : String → Bool) (pattern : String) : Bool :=
  let text := pyStrip pattern
  if text.length < 5 then false
  else if text == ".*" || text == "^.*$" || text == ".*error.*" then false
  else if digitRun text.data 0 then false
  else compileOk text

/-!  ## Pattern registry and the batch handler (problems.py lines 55-80 and
206-284)

A compiled regex is modelled by its source text plus the flag recording
whether the `re.error` fallback `re.compile(re.escape(text), re.DOTALL)`
was taken (problems.py lines 75-78 and 260-265).  The regex `search`
behaviour is an oracle parameter; `compiles` is the `re.compile`-succeeds
oracle.  -/

structure CompiledPattern where
  source : String
  escaped : Bool
deriving DecidableEq

/-- `re.compile(p, re.DOTALL)` with the `re.escape` fallback on
`re.error`. -/
def mkCompiled (compiles : String → Bool) (p : String) : CompiledPattern :=
  if compiles p then ⟨p, false⟩ else ⟨p, true⟩

/-- One entry of the in-memory `problems` registry: a compiled pattern and
its occurrence count. -/
structure Problem where
  pattern : CompiledPattern
  count : Nat
deriving DecidableEq

/-- The match test of `handle_batch` (problems.py lines 216-221): the
compiled pattern is searched against both the pretty-printed and the
compact serialization of the batch. -/
def batchMatches (search : CompiledPattern → String → Bool)
    (cp : CompiledPattern) (pretty compact : String) : Bool :=
  search cp pretty || search cp compact

/-- First-match-wins scan of the registry, returning the index and entry of
the first matching problem. -/
def findMatch (search : CompiledPattern → String → Bool) :
    List Problem → String → String → Option (Nat × Problem)
  | [], _, _ => none
  | pr :: rest, p, c =>
      if batchMatches search pr.pattern p c then some (0, pr)
      else (findMatch search rest p c).map (fun ip => (ip.1 + 1, ip.2))

/-- The duck-typed interface `handle_batch` uses on a parsed RCA result:
`model_dump()`, `.summary` and `.recurrence_pattern` (problems.py lines
254-261).  The concrete `RcaResult` class declares no `summary` or
`recurrence_pattern` field — see the theorem for claim C1. -/
structure RcaLike where
  dump : Val
  summary : String
  recurrence_pattern : String

/-- The projection of the record dict built by `handle_batch` onto the
fields the claims quantify over: the `occurrence` ordinal, the optional
`result` value, the optional `error` marker, and the optional
`trigger_type` string.  (The `event` key always holds the batch context
and is not modelled.) -/
structure RecordM where
  occurrence : Nat
  result : Option Val
  error : Option String
  trigger : Option String

/-- The outcome of one `handle_batch` call: the updated registry and rate
clock, the record written to the problem log, whether the analysis path
(prompt build, backend call, parse) was entered, and the time at which the
backend call starts (meaningful only when `llmCalled` is true). -/
structure HBOut where
  problems : List Problem
  lastAnalysis : ℚ
  record : RecordM
  llmCalled : Bool
  callTime : ℚ

/-- Embedding of `handle_batch` (problems.py lines 206-284).

Parameters: `search`/`compiles` are the regex oracles; `problems` and
`lastAnalysis` are the orchestrator state; `pretty`/`compact` are the two
serializations of the batch (`json.dumps` with `indent=2` and with compact
separators); `trigger` is the joined trigger-type string; `now` is the
event-loop clock read before the rate-limit sleep; `afterTime` is the
clock read after a successful analysis; `outcome` is the analysis result
(`none` models any exception from prompt building, the backend call or
`parse_result`).

Matched branch: the matched entry's count is incremented in place and the
record carries the new count and no result.  New-problem branch: sleep
until `lastAnalysis + rate` if that moment has not passed, call the
backend; on failure record an `analysis_failed` error and register
nothing; on success record the result dump with occurrence 1, update the
rate clock, and append a fingerprint compiled from the result's
`recurrence_pattern` with count 1 and no validation. -/
def handleBatch (search : CompiledPattern → String → Bool)
    (compiles : String → Bool) (problems : List Problem)
    (lastAnalysis rate : ℚ) (pretty compact : String)
    (trigger : Option String) (now afterTime : ℚ)
    (outcome : Option RcaLike) : HBOut :=
  match findMatch search problems pretty compact with
  | some ipr =>
      let c := ipr.2.count + 1
      { problems := problems.set ipr.1 { ipr.2 with count := c }
        lastAnalysis := lastAnalysis
        record := { occurrence := c, result := none, error := none,
                    trigger := trigger }
        llmCalled := false
        callTime := now }
  | none =>
      let delay := lastAnalysis + rate - now
      let callTime := if delay > 0 then now + delay else now
      match outcome with
      | none =>
          { problems := problems
            lastAnalysis := lastAnalysis
            record := { occurrence := 1, result := none,
                        error := some "analysis_failed", trigger := trigger }
            llmCalled := true
            callTime := callTime }
      | some res =>
          { problems := problems ++
              [{ pattern := mkCompiled compiles res.recurrence_pattern,
                 count := 1 }]
            lastAnalysis := afterTime
            record := { occurrence := 1, result := some res.dump,
                        error := none, trigger := trigger }
            llmCalled := true
            callTime := callTime }

/-!  ## Rehydration of the registry (problems.py lines 55-80)  -/

/-- The per-line extraction of `_load_problems`: `result` is
`data.get("result") or` the empty dict, the pattern must be a `str` under
`recurrence_pattern`, and the occurrence must be an `int`; otherwise the
line contributes nothing.  A non-dict line or a truthy non-dict `result`
raises (`AttributeError`), which `_load_problems` does not catch. -/
def recordPatternOcc (line : Val) : Except Unit (Option (String × Int)) := do
  let resOpt ← pyGetOpt line "result"
  match pyOr (resOpt.getD .null) (.dict []) with
  | .dict rkvs =>
      match lookupVal rkvs "recurrence_pattern" with
      | some (.str pat) =>
          match ← pyGetOpt line "occurrence" with
          | some (.int occ) => pure (some (pat, occ))
          | _ => pure none
      | _ => pure none
  | _ => .error ()

/-- `loaded.setdefault(pattern, count 0)` followed by
`entry["count"] = max(entry["count"], occ)`, on an insertion-ordered
association list.  Counts are clamped at zero exactly as the Python
`max` against the initial `0` does. -/
def bumpCount : List (String × Nat) → String → Int → List (String × Nat)
  | [], p, occ => [(p, occ.toNat)]
  | (q, c) :: rest, p, occ =>
      if q = p then (q, max c occ.toNat) :: rest
      else (q, c) :: bumpCount rest p occ

/-- Embedding of `_load_problems` (problems.py lines 55-80) over the parsed
JSON lines of all problem log segments. -/
def loadProblems (compiles : String → Bool) (lines : List Val) :
    Except Unit (List Problem) := do
  let counts ← lines.foldlM (fun acc line => do
      match ← recordPatternOcc line with
      | some po => pure (bumpCount acc po.1 po.2)
      | none => pure acc) ([] : List (String × Nat))
  pure (counts.map (fun pc =>
    { pattern := mkCompiled compiles pc.1, count := pc.2 }))

/-!  ## Analysis-runner pattern store (analysis/patterns.py lines 19-63,
analysis/runner.py lines 135-138)  -/

structure PatternRecord where
  pattern : String
  occurrences : Nat
  last_occurred : String
deriving DecidableEq

/-- `PatternStore.get`: first record with the given pattern text. -/
def storeGet (rs : List PatternRecord) (p : String) : Option PatternRecord :=
  rs.find? (fun r => r.pattern == p)

/-- `PatternStore.update` applied to the first record with the given
pattern text (the in-place mutation of `add`'s existing branch). -/
def storeUpdateFirst : List PatternRecord → String → String →
    List PatternRecord
  | [], _, _ => []
  | r :: rest, p, t =>
      if r.pattern == p then
        { r with occurrences := r.occurrences + 1, last_occurred := t } :: rest
      else r :: storeUpdateFirst rest p t

/-- `PatternStore.add` (analysis/patterns.py lines 48-58). -/
def storeAdd (rs : List PatternRecord) (p t : String) : List PatternRecord :=
  if (storeGet rs p).isSome then storeUpdateFirst rs p t
  else rs ++ [{ pattern := p, occurrences := 1, last_occurred := t }]

/-- The registration step of `AnalysisRunner._analyze` (runner.py lines
135-138): the recurrence pattern is added to the store only when
`validate_pattern` accepts it. -/
def runnerRegister (compileOk : String → Bool) (rs : List PatternRecord)
    (p t : String) : List PatternRecord :=
  if validatePattern compileOk p then storeAdd rs p t else rs

/-!  ## Problem log rotation (problems.py lines 30-52)

A segment file is its list of written lines; `tell` is the byte position
(each line is followed by one newline; lengths are counted uniformly in
characters, which coincides with bytes for the ASCII content of the
claims).  -/

structure LoggerState where
  closedSegs : List (List String)
  current : List String

/-- `self._file.tell()` of a segment holding the given lines. -/
def tellBytes (lines : List String) : Nat :=
  (lines.map (fun l => l.length + 1)).sum

/-- `ProblemLogger.write` (problems.py lines 46-52) for an already-encoded
line: rotate to a fresh segment when the line would push the current
segment past `maxBytes`, then append the line. -/
def writeLine (maxBytes : Nat) (st : LoggerState) (line : String) :
    LoggerState :=
  if tellBytes st.current + line.length + 1 > maxBytes then
    { closedSegs := st.closedSegs ++ [st.current], current := [line] }
  else
    { st with current := st.current ++ [line] }

/-- The state of a freshly constructed `ProblemLogger`: one empty open
segment. -/
def freshLogger : LoggerState := { closedSegs := [], current := [] }

def writeAll (maxBytes : Nat) (lines : List String) : LoggerState :=
  lines.foldl (writeLine maxBytes) freshLogger

/-- All lines across all segment files, in file order. -/
def allLines (st : LoggerState) : List String :=
  st.closedSegs.flatten ++ st.current

/-- The number of segment files produced (closed segments plus the open
one). -/
def segCount (st : LoggerState) : Nat := st.closedSegs.length + 1

/-!  ## Event batcher (problems.py lines 83-129)

The batcher is modelled as a small state machine over its queue
(`_events`), its window-timer task (`_task`) and the batches handed to
completed callbacks.  `timerFire` is the step of `_run` after the window
sleep (lines 108-110): the task takes the queued events and enters the
callback.  `callbackFinish` is the completion of the callback (lines
111-116).  `flushB` is `flush` (lines 118-129) in the interleaving where
the timer task is cancelled while awaiting inside the callback: the
`CancelledError` raised at the callback's suspension point aborts it, so
the batch it had taken is neither completed nor re-queued; events still in
the queue are then delivered in one batch.  -/

inductive TimerState (E : Type) where
  | idle : TimerState E
  | sleeping : TimerState E
  | running : List E → TimerState E

structure Batcher (E : Type) where
  pending : List E
  timer : TimerState E
  delivered : List (List E)

def emptyBatcher (E : Type) : Batcher E :=
  { pending := [], timer := .idle, delivered := [] }

/-- `EventBatcher.add` with a positive window (problems.py lines 97-105):
append the event and start the window timer if none is running. -/
def addEvent {E : Type} (b : Batcher E) (e : E) : Batcher E :=
  { b with pending := b.pending ++ [e],
           timer := match b.timer with
             | .idle => .sleeping
             | t => t }

/-- The window timer elapsing (problems.py lines 108-110): the task takes
the queued events and enters the callback. -/
def timerFire {E : Type} (b : Batcher E) : Batcher E :=
  match b.timer with
  | .sleeping => { b with pending := [], timer := .running b.pending }
  | _ => b

/-- The callback completing normally (problems.py lines 111-116). -/
def callbackFinish {E : Type} (b : Batcher E) : Batcher E :=
  match b.timer with
  | .running taken =>
      { b with delivered := b.delivered ++ [taken],
               timer := if b.pending.isEmpty then .idle else .sleeping }
  | _ => b

/-- `EventBatcher.flush` (problems.py lines 118-129) in the interleaving
where a running callback is cancelled at a suspension point: the timer
task is cancelled and awaited (dropping a batch an in-flight callback had
taken), then any queued events are delivered as one batch. -/
def flushB {E : Type} (b : Batcher E) : Batcher E :=
  let b1 : Batcher E := { b with timer := .idle }
  if b1.pending.isEmpty then b1
  else { b1 with pending := [],
                 delivered := b1.delivered ++ [b1.pending] }

/-- Every event currently owned by the batcher but not yet delivered:
queued events plus a batch taken by a running callback. -/
def liveEvents {E : Type} (b : Batcher E) : List E :=
  b.pending ++ (match b.timer with | .running taken => taken | _ => [])

/-- Every event ever handed to the batcher: delivered plus live. -/
def allAdded {E : Type} (b : Batcher E) : List E :=
  b.delivered.flatten ++ liveEvents b

/-!  ## Helper lemmas  -/

mutual

theorem containsFailure_eq_any : ∀ v : Val,
    containsFailure v = (reachableDicts v).any dictMarker
  | .null => rfl
  | .bool _ => rfl
  | .int _ => rfl
  | .float _ => rfl
  | .str _ => rfl
  | .dict kvs => by
      simp [containsFailure, reachableDicts, List.any_cons,
        containsFailureVals_eq_any kvs]
  | .list xs => by
      simp [containsFailure, reachableDicts, containsFailureList_eq_any xs]

theorem containsFailureList_eq_any : ∀ xs : List Val,
    containsFailureList xs = (reachableDictsList xs).any dictMarker
  | [] => rfl
  | v :: vs => by
      simp [containsFailureList, reachableDictsList, List.any_append,
        containsFailure_eq_any v, containsFailureList_eq_any vs]

theorem containsFailureVals_eq_any : ∀ kvs : List (String × Val),
    containsFailureVals kvs = (reachableDictsVals kvs).any dictMarker
  | [] => rfl
  | kv :: kvs => by
      simp [containsFailureVals, reachableDictsVals, List.any_append,
        containsFailure_eq_any kv.2, containsFailureVals_eq_any kvs]

end

theorem findMatch_isSome_of_pattern_mem
    {search : CompiledPattern → String → Bool} {l : List Problem}
    {p c : String}
    (h : ∃ cp ∈ l.map Problem.pattern, batchMatches search cp p c = true) :
    (findMatch search l p c).isSome = true := by
  induction l with
  | nil => simp at h
  | cons pr rest ih =>
      rw [findMatch]
      by_cases hm : batchMatches search pr.pattern p c = true
      · simp [hm]
      · obtain ⟨cp, hcp, hmatch⟩ := h
        simp only [List.map_cons, List.mem_cons] at hcp
        rcases hcp with hcp | hcp
        · exact absurd (hcp ▸ hmatch) hm
        · have := ih ⟨cp, hcp, hmatch⟩
          rw [Bool.not_eq_true] at hm
          simp [hm, Option.isSome_map, this]

theorem patterns_after_match
    {search : CompiledPattern → String → Bool} {l : List Problem}
    {p c : String} {i : Nat} {pr : Problem} {n : Nat}
    (h : findMatch search l p c = some (i, pr)) :
    (l.set i { pr with count := n }).map Problem.pattern =
      l.map Problem.pattern := by
  induction l generalizing i with
  | nil => simp [findMatch] at h
  | cons hd rest ih =>
      rw [findMatch] at h
      by_cases hm : batchMatches search hd.pattern p c = true
      · simp only [hm, if_true] at h
        obtain ⟨hi, hpr⟩ := Prod.mk.injEq .. ▸ (Option.some.injEq .. ▸ h)
        subst hi
        subst hpr
        simp
      · rw [Bool.not_eq_true] at hm
        simp only [hm, Bool.false_eq_true, if_false, Option.map_eq_some'] at h
        obtain ⟨⟨j, pc⟩, hj, heq⟩ := h
        obtain ⟨hi, hpr⟩ := Prod.mk.injEq .. ▸ heq
        subst hpr
        rw [← hi]
        simp [ih hj]

theorem tellBytes_append (xs : List String) (a : String) :
    tellBytes (xs ++ [a]) = tellBytes xs + (a.length + 1) := by
  simp [tellBytes]

theorem allLines_writeLine (m : Nat) (st : LoggerState) (l : String) :
    allLines (writeLine m st l) = allLines st ++ [l] := by
  unfold writeLine allLines
  split <;> simp

theorem allLines_foldl (m : Nat) (lines : List String) :
    ∀ st : LoggerState,
      allLines (lines.foldl (writeLine m) st) = allLines st ++ lines := by
  induction lines with
  | nil => intro st; simp
  | cons l rest ih =>
      intro st
      simp only [List.foldl_cons]
      rw [ih, allLines_writeLine]
      simp

theorem foldl_closedSegs_nil (m : Nat) (lines : List String) :
    ∀ st : LoggerState,
      (lines.foldl (writeLine m) st).closedSegs = [] →
        st.closedSegs = [] ∧
        tellBytes (lines.foldl (writeLine m) st).current =
          tellBytes st.current + tellBytes lines ∧
        (lines = [] ∨
          tellBytes (lines.foldl (writeLine m) st).current ≤ m) := by
  induction lines using List.reverseRecOn with
  | nil =>
      intro st h
      simp only [List.foldl_nil] at h ⊢
      exact ⟨h, by simp [tellBytes], by simp⟩
  | append_singleton ls a ih =>
      intro st h
      rw [List.foldl_append] at h ⊢
      simp only [List.foldl_cons, List.foldl_nil] at h ⊢
      rw [writeLine] at h ⊢
      by_cases hcond :
          tellBytes (List.foldl (writeLine m) st ls).current + a.length + 1 > m
      · rw [if_pos hcond] at h
        simp at h
      · rw [if_neg hcond] at h ⊢
        obtain ⟨hnil, htell, _⟩ := ih st h
        refine ⟨hnil, ?_, Or.inr ?_⟩
        · simp only [tellBytes_append, htell]
          omega
        · simp only [tellBytes_append, htell]
          omega

/-!  ## Claims  -/

/-- C6: for every nested structure attached to a trace event,
`_contains_failure` returns true exactly when some dict reachable by
walking all dict values and all elements of non-string iterables has a
truthy `error` value or `success` identically `False`; and the classifier
assigns `automation_failure` to the deeply nested example
(a maps to b maps to a one-element list of a dict whose c maps to a dict
with success false). -/
theorem c6_recursive_failure_iff :
    (∀ v : Val, containsFailure v = true ↔
      ∃ kvs ∈ reachableDicts v, dictMarker kvs = true) ∧
    classify (.dict [("event_type", .str "trace"),
      ("data", .dict [("a", .dict [("b", .list [.dict [("c",
        .dict [("success", .bool false)])]])])])]) =
      .ok (some "automation_failure") := by
  constructor
  · intro v
    rw [containsFailure_eq_any]
    exact List.any_eq_true
  · have hcf : containsFailure
        (.dict [("a", .dict [("b", .list [.dict [("c",
          .dict [("success", .bool false)])]])])]) = true := by
      simp [containsFailure, containsFailureVals, containsFailureList,
        dictMarker, truthyOpt, lookupVal, isPyFalse]
    simp [classify, pyGetOpt, pyGetD, pyOr, isStrVal, lookupVal, hcf,
      Except.map, bind, Except.bind, pure, Except.pure]

/-- C10: in the recursive failure walk, an `error` key mapping to a falsy
value (None, False, 0, the empty string, the empty list) is not a failure
marker; `success` triggers only on the boolean `False`, not on the
numerically equal `0`; and strings are never recursed into, so a failure
marker appearing only inside a string value is not detected. -/
theorem c10_falsy_markers :
    containsFailure (.dict [("error", .null)]) = false ∧
    containsFailure (.dict [("error", .bool false)]) = false ∧
    containsFailure (.dict [("error", .int 0)]) = false ∧
    containsFailure (.dict [("error", .str "")]) = false ∧
    containsFailure (.dict [("error", .list [])]) = false ∧
    containsFailure (.dict [("success", .int 0)]) = false ∧
    (∀ s : String, containsFailure (.str s) = false) ∧
    (∀ s : String,
      containsFailure (.dict [("message", .str s)]) = false) := by
  refine ⟨?_, ?_, ?_, ?_, ?_, ?_, fun s => rfl, fun s => ?_⟩ <;>
    simp [containsFailure, containsFailureVals, containsFailureList,
      dictMarker, truthyOpt, truthy, lookupVal, isPyFalse]

/-- C1: the claim states that the `RcaResult` schema contains the fields
summary, root_cause, impact, confidence, candidate_actions, risk, tests
and recurrence_pattern, and that after a successful parse the orchestrator
can read `result.summary` and `result.recurrence_pattern`.  The class body
of `RcaResult` (contracts/rca.py lines 20-35) declares neither `summary`
nor `recurrence_pattern`: validation of the mock backend's canned response
succeeds (the extra keys are ignored), but the validated result exposes no
such fields — `model_dump` carries neither key — so the reads in
`handle_batch` (problems.py lines 256-261) and `AnalysisRunner._analyze`
(runner.py line 135) fail.  This contradicts the repository's own tests
and mock backend, which include both fields. -/
theorem c1_rca_schema_missing_fields :
    (validateRca mockResponse).isSome = true ∧
    "summary" ∉ rcaFields ∧
    "recurrence_pattern" ∉ rcaFields ∧
    (∀ r : RcaResultM, lookupVal (dumpFields r) "summary" = none ∧
      lookupVal (dumpFields r) "recurrence_pattern" = none) := by
  refine ⟨by rfl, by decide, by decide, fun r => ⟨rfl, rfl⟩⟩

/-- C2 counterexample: a first-seen batch whose analysis fails is written
with occurrence 1, no `result` field and an `analysis_failed` error
marker, so the RCA result field is not present although occurrence is 1.
-/
theorem c2_result_iff_occurrence_counterexample :
    let o := handleBatch (fun _ _ => false) (fun _ => true) [] 0 0 "b" "b"
      none 0 0 none
    ¬(o.record.result.isSome = true ↔ o.record.occurrence = 1) := by
  intro o h
  have h1 : o.record.occurrence = 1 := rfl
  have h2 : o.record.result.isSome = false := rfl
  rw [h.mpr h1] at h2
  exact Bool.true_eq_false.mp h2

/-- C2 amended: a `ProblemRecord` carries an RCA result exactly when the
batch matched no registered fingerprint and the analysis succeeded; every
record carrying a result has occurrence 1; a first-seen batch whose
analysis fails is still written with occurrence 1 but with an
`analysis_failed` error marker instead of a result. -/
theorem c2_result_presence_amended
    (search : CompiledPattern → String → Bool) (compiles : String → Bool)
    (problems : List Problem) (lastAnalysis rate : ℚ)
    (pretty compact : String) (trigger : Option String)
    (now afterTime : ℚ) (outcome : Option RcaLike) :
    let o := handleBatch search compiles problems lastAnalysis rate pretty
      compact trigger now afterTime outcome
    (o.record.result.isSome = true ↔
      (findMatch search problems pretty compact = none ∧
        outcome.isSome = true)) ∧
    (o.record.result.isSome = true → o.record.occurrence = 1) ∧
    (findMatch search problems pretty compact = none → outcome = none →
      o.record.occurrence = 1 ∧ o.record.error = some "analysis_failed") := by
  intro o
  unfold_let o
  unfold handleBatch
  cases hm : findMatch search problems pretty compact with
  | some ipr => cases outcome <;> simp
  | none => cases outcome <;> simp

theorem mem_storeUpdateFirst {rs : List PatternRecord} {p t : String}
    {r : PatternRecord} (h : r ∈ storeUpdateFirst rs p t) :
    r.pattern ∈ rs.map PatternRecord.pattern := by
  induction rs with
  | nil => simp [storeUpdateFirst] at h
  | cons hd rest ih =>
      rw [storeUpdateFirst] at h
      by_cases hp : (hd.pattern == p) = true
      · rw [if_pos hp] at h
        rcases List.mem_cons.mp h with h | h
        · subst h
          exact List.mem_map.mpr ⟨hd, List.mem_cons_self _ _, rfl⟩
        · exact List.mem_map_of_mem _ (List.mem_cons_of_mem _ h)
      · rw [if_neg hp] at h
        rcases List.mem_cons.mp h with h | h
        · subst h
          exact List.mem_map_of_mem _ (List.mem_cons_self _ _)
        · rcases List.mem_map.mp (ih h) with ⟨q, hq, hqp⟩
          exact hqp ▸ List.mem_map_of_mem _ (List.mem_cons_of_mem _ hq)

theorem validatePattern_props {compileOk : String → Bool} {p : String}
    (h : validatePattern compileOk p = true) :
    5 ≤ (pyStrip p).length ∧ pyStrip p ≠ ".*" ∧ pyStrip p ≠ "^.*$" ∧
      pyStrip p ≠ ".*error.*" ∧ digitRun (pyStrip p).data 0 = false ∧
      compileOk (pyStrip p) = true := by
  simp only [validatePattern] at h
  split_ifs at h with h1 h2 h3
  simp only [Bool.or_eq_true, beq_iff_eq, not_or] at h2
  exact ⟨by omega, h2.1.1, h2.1.2, h2.2, by simpa using h3, h⟩

/-- C3 counterexample: the monitor pipeline accepts the degenerate
fingerprint `.*` both when registering a fresh RCA result's recurrence
pattern (problems.py lines 260-266) and when rehydrating persisted history
(problems.py lines 55-80), although `validate_pattern` rejects it; no
validation is applied on either path. -/
theorem c3_unvalidated_registration_counterexample :
    validatePattern (fun _ => true) ".*" = false ∧
    (handleBatch (fun _ _ => false) (fun _ => true) [] 0 0 "b" "b" none 0 0
        (some { dump := .null, summary := "s",
                recurrence_pattern := ".*" })).problems =
      [{ pattern := { source := ".*", escaped := false }, count := 1 }] ∧
    loadProblems (fun _ => true)
        [.dict [("event", .dict []), ("occurrence", .int 1),
          ("result", .dict [("recurrence_pattern", .str ".*")])]] =
      .ok [{ pattern := { source := ".*", escaped := false }, count := 1 }] := by
  refine ⟨by decide, rfl, rfl⟩

/-- C3 amended: only the analysis-runner pipeline validates fingerprints —
`AnalysisRunner._analyze` adds a recurrence pattern to its `PatternStore`
only when `validate_pattern` accepts it, so every pattern text newly
accepted there has stripped length at least 5, is not a degenerate pattern
such as `.*`, and contains no run of four or more consecutive digits.  The
monitor pipeline in problems.py registers and rehydrates fingerprints with
no validation at all. -/
theorem c3_runner_validation_amended
    (compileOk : String → Bool) (rs : List PatternRecord) (p t : String)
    (r : PatternRecord) (hr : r ∈ runnerRegister compileOk rs p t) :
    r.pattern ∈ rs.map PatternRecord.pattern ∨
      (validatePattern compileOk p = true ∧ r.pattern = p ∧
        5 ≤ (pyStrip p).length ∧ pyStrip p ≠ ".*" ∧
        digitRun (pyStrip p).data 0 = false) := by
  unfold runnerRegister at hr
  by_cases hv : validatePattern compileOk p = true
  · rw [if_pos hv] at hr
    unfold storeAdd at hr
    by_cases hg : (storeGet rs p).isSome = true
    · rw [if_pos hg] at hr
      exact Or.inl (mem_storeUpdateFirst hr)
    · rw [if_neg hg] at hr
      rcases List.mem_append.mp hr with h | h
      · exact Or.inl (List.mem_map_of_mem _ h)
      · have hre :
            r = { pattern := p, occurrences := 1, last_occurred := t } := by
          simpa using h
        subst hre
        obtain ⟨hlen, hne1, _, _, hrun, _⟩ := validatePattern_props hv
        exact Or.inr ⟨hv, rfl, hlen, hne1, hrun⟩
  · rw [if_neg hv] at hr
    exact Or.inl (List.mem_map_of_mem _ hr)

theorem c3_runner_validation_amended_witness :
    ((⟨"foo.*bar", 1, "t0"⟩ : PatternRecord) ∈
        runnerRegister (fun _ => true) [] "foo.*bar" "t0") ∧
    ((⟨"foo.*bar", 1, "t0"⟩ : PatternRecord).pattern ∈
        ([] : List PatternRecord).map PatternRecord.pattern ∨
      (validatePattern (fun _ => true) "foo.*bar" = true ∧
        (⟨"foo.*bar", 1, "t0"⟩ : PatternRecord).pattern = "foo.*bar" ∧
        5 ≤ (pyStrip "foo.*bar").length ∧ pyStrip "foo.*bar" ≠ ".*" ∧
        digitRun (pyStrip "foo.*bar").data 0 = false)) :=
  ⟨by decide,
   c3_runner_validation_amended (fun _ => true) [] "foo.*bar" "t0" _
     (by decide)⟩

/-- C4: when both of two successive batches match already-registered
fingerprints, neither `handle_batch` call enters the analysis path (the
backend is never invoked for a matching batch), both records carry no RCA
result, and the second record's occurrence is the matched fingerprint's
previous count plus one. -/
theorem c4_dedup_no_backend_call
    (search : CompiledPattern → String → Bool) (compiles : String → Bool)
    (problems : List Problem) (la rate : ℚ) (b1p b1c b2p b2c : String)
    (tr1 tr2 : Option String) (now1 af1 now2 af2 : ℚ)
    (out1 out2 : Option RcaLike)
    (h1 : ∃ pr ∈ problems, batchMatches search pr.pattern b1p b1c = true)
    (h2 : ∃ pr ∈ problems, batchMatches search pr.pattern b2p b2c = true) :
    let o1 := handleBatch search compiles problems la rate b1p b1c tr1 now1
      af1 out1
    let o2 := handleBatch search compiles o1.problems o1.lastAnalysis rate
      b2p b2c tr2 now2 af2 out2
    o1.llmCalled = false ∧ o2.llmCalled = false ∧
    o1.record.result = none ∧ o2.record.result = none ∧
    ∃ i pr, findMatch search o1.problems b2p b2c = some (i, pr) ∧
      o2.record.occurrence = pr.count + 1 := by
  intro o1 o2
  have h1m : ∃ cp ∈ problems.map Problem.pattern,
      batchMatches search cp b1p b1c = true := by
    obtain ⟨pr, hpr, hm⟩ := h1
    exact ⟨pr.pattern, List.mem_map_of_mem _ hpr, hm⟩
  obtain ⟨⟨i1, pr1⟩, hm1⟩ :=
    Option.isSome_iff_exists.mp (findMatch_isSome_of_pattern_mem h1m)
  have ho1 : o1 =
      { problems := problems.set i1 { pr1 with count := pr1.count + 1 },
        lastAnalysis := la,
        record := { occurrence := pr1.count + 1, result := none,
                    error := none, trigger := tr1 },
        llmCalled := false, callTime := now1 } := by
    unfold_let o1
    unfold handleBatch
    rw [hm1]
  have hpat : o1.problems.map Problem.pattern =
      problems.map Problem.pattern := by
    rw [ho1]
    exact patterns_after_match hm1
  have h2m : ∃ cp ∈ o1.problems.map Problem.pattern,
      batchMatches search cp b2p b2c = true := by
    rw [hpat]
    obtain ⟨pr, hpr, hm⟩ := h2
    exact ⟨pr.pattern, List.mem_map_of_mem _ hpr, hm⟩
  obtain ⟨⟨i2, pr2⟩, hm2⟩ :=
    Option.isSome_iff_exists.mp (findMatch_isSome_of_pattern_mem h2m)
  have ho2 : o2 =
      { problems := o1.problems.set i2 { pr2 with count := pr2.count + 1 },
        lastAnalysis := o1.lastAnalysis,
        record := { occurrence := pr2.count + 1, result := none,
                    error := none, trigger := tr2 },
        llmCalled := false, callTime := now2 } := by
    unfold_let o2
    unfold handleBatch
    rw [hm2]
  refine ⟨by rw [ho1], by rw [ho2], by rw [ho1], by rw [ho2],
    i2, pr2, hm2, by rw [ho2]⟩

theorem c4_dedup_no_backend_call_witness :
    (∃ pr ∈ [({ pattern := ⟨"P", false⟩, count := 3 } : Problem)],
      batchMatches (fun _ _ => true) pr.pattern "b1" "b1" = true) ∧
    (∃ pr ∈ [({ pattern := ⟨"P", false⟩, count := 3 } : Problem)],
      batchMatches (fun _ _ => true) pr.pattern "b2" "b2" = true) ∧
    (let o1 := handleBatch (fun _ _ => true) (fun _ => true)
      [{ pattern := ⟨"P", false⟩, count := 3 }] 0 0 "b1" "b1" none 0 0 none
    let o2 := handleBatch (fun _ _ => true) (fun _ => true) o1.problems
      o1.lastAnalysis 0 "b2" "b2" none 0 0 none
    o1.llmCalled = false ∧ o2.llmCalled = false ∧
    o1.record.result = none ∧ o2.record.result = none ∧
    ∃ i pr, findMatch (fun _ _ => true) o1.problems "b2" "b2" =
        some (i, pr) ∧
      o2.record.occurrence = pr.count + 1) :=
  ⟨by decide, by decide,
   c4_dedup_no_backend_call (fun _ _ => true) (fun _ => true)
     [{ pattern := ⟨"P", false⟩, count := 3 }]
     0 0 "b1" "b1" "b2" "b2" none none 0 0 0 0 none none
     (by decide) (by decide)⟩

theorem handleBatch_callTime_lower
    (search : CompiledPattern → String → Bool) (compiles : String → Bool)
    (problems : List Problem) (la rate : ℚ) (p c : String)
    (tr : Option String) (now af : ℚ) (out : Option RcaLike)
    (h : findMatch search problems p c = none) :
    la + rate ≤
      (handleBatch search compiles problems la rate p c tr now af
        out).callTime := by
  unfold handleBatch
  rw [h]
  cases out <;> simp only [] <;> split_ifs <;> linarith

theorem handleBatch_llmCalled_of_no_match
    {search : CompiledPattern → String → Bool} {compiles : String → Bool}
    {problems : List Problem} {la rate : ℚ} {p c : String}
    {tr : Option String} {now af : ℚ} {out : Option RcaLike}
    (h : findMatch search problems p c = none) :
    (handleBatch search compiles problems la rate p c tr now af
      out).llmCalled = true := by
  unfold handleBatch
  rw [h]
  cases out <;> rfl

/-- C5 counterexample: the rate-limit clock `last_analysis` is updated
only after a successful analysis (problems.py line 253), so when the first
of two back-to-back new-problem discoveries fails, the second backend call
is not delayed: with a configured interval of 10, the two calls here start
at times 100 and 101, separated by 1. -/
theorem c5_rate_limit_counterexample :
    let o1 := handleBatch (fun _ _ => false) (fun _ => true) [] 0 10 "b1"
      "b1" none 100 100 none
    let o2 := handleBatch (fun _ _ => false) (fun _ => true) o1.problems
      o1.lastAnalysis 10 "b2" "b2" none 101 101 none
    o1.llmCalled = true ∧ o2.llmCalled = true ∧
      o2.callTime - o1.callTime < 10 := by
  refine ⟨rfl, rfl, ?_⟩
  norm_num [handleBatch, findMatch]

/-- C5 amended: when the first of two consecutive new-problem discoveries
is analysed successfully, the second backend call starts no earlier than
the first call's start plus the configured interval: before each call the
orchestrator sleeps until `last_analysis + rate` if that moment has not
passed, and `last_analysis` records the (monotone) clock read after the
first successful analysis.  A failed analysis leaves the clock unchanged
and imposes no delay on the next call. -/
theorem c5_rate_limit_amended
    (search : CompiledPattern → String → Bool) (compiles : String → Bool)
    (problems : List Problem) (la rate : ℚ) (b1p b1c b2p b2c : String)
    (tr1 tr2 : Option String) (now1 af1 now2 af2 : ℚ) (res1 : RcaLike)
    (out2 : Option RcaLike)
    (h1 : findMatch search problems b1p b1c = none)
    (h2 : findMatch search
      (handleBatch search compiles problems la rate b1p b1c tr1 now1 af1
        (some res1)).problems b2p b2c = none)
    (hmono : (handleBatch search compiles problems la rate b1p b1c tr1 now1
      af1 (some res1)).callTime ≤ af1) :
    let o1 := handleBatch search compiles problems la rate b1p b1c tr1 now1
      af1 (some res1)
    let o2 := handleBatch search compiles o1.problems o1.lastAnalysis rate
      b2p b2c tr2 now2 af2 out2
    o1.llmCalled = true ∧ o2.llmCalled = true ∧
      o1.callTime + rate ≤ o2.callTime := by
  intro o1 o2
  have hla : o1.lastAnalysis = af1 := by
    unfold_let o1
    unfold handleBatch
    rw [h1]
  have hct := handleBatch_callTime_lower search compiles o1.problems
    o1.lastAnalysis rate b2p b2c tr2 now2 af2 out2 h2
  refine ⟨handleBatch_llmCalled_of_no_match h1,
    handleBatch_llmCalled_of_no_match h2, ?_⟩
  have : o1.lastAnalysis + rate ≤ o2.callTime := hct
  rw [hla] at this
  linarith

theorem c5_rate_limit_amended_witness :
    (findMatch (fun _ _ => false) [] "b1" "b1" = none) ∧
    (findMatch (fun _ _ => false)
      (handleBatch (fun _ _ => false) (fun _ => true) [] 0 10 "b1" "b1"
        none 5 20 (some ⟨Val.null, "s", "recur"⟩)).problems "b2" "b2" =
      none) ∧
    ((handleBatch (fun _ _ => false) (fun _ => true) [] 0 10 "b1" "b1"
      none 5 20 (some ⟨Val.null, "s", "recur"⟩)).callTime ≤ 20) ∧
    (let o1 := handleBatch (fun _ _ => false) (fun _ => true) [] 0 10 "b1"
      "b1" none 5 20 (some ⟨Val.null, "s", "recur"⟩)
    let o2 := handleBatch (fun _ _ => false) (fun _ => true) o1.problems
      o1.lastAnalysis 10 "b2" "b2" none 25 30 none
    o1.llmCalled = true ∧ o2.llmCalled = true ∧
      o1.callTime + 10 ≤ o2.callTime) :=
  ⟨by decide, by decide, by norm_num [handleBatch, findMatch],
   c5_rate_limit_amended (fun _ _ => false) (fun _ => true) [] 0 10 "b1"
     "b1" "b2" "b2" none none 5 20 25 30 ⟨Val.null, "s", "recur"⟩ none
     (by decide) (by decide) (by norm_num [handleBatch, findMatch])⟩

/-- C7 counterexample: the classification is not total on malformed
envelopes — a `system_log_event` whose `data` field is a string makes the
loop body call `.get` on a non-dict, raising `AttributeError`
(problems.py line 313); the exception is only caught by the connection
loop's blanket handler (problems.py line 366), which tears the websocket
connection down, so a classification failure on an individual event is
propagated to the ingestion loop. -/
theorem c7_classifier_raises_counterexample :
    classify (.dict [("event_type", .str "system_log_event"),
      ("data", .str "boom")]) = .error () := rfl

/-- C7 amended: classification is a deterministic pure function of the
envelope and never raises provided the envelope is a dict whose `data`
payload (defaulting to the empty dict) is a dict, and — on the
supervisor/addon path — whose nested `data` payload is a dict; missing
fields such as `level`, a non-dict `new_state`, and unknown event types
default to no trigger.  A non-dict `data` payload raises `AttributeError`,
which propagates to the connection loop. -/
theorem c7_classifier_total_amended :
    ∀ event : Val, wellFormedEvent event = true →
      ∃ t, classify event = .ok t := by
  intro event h
  cases event with
  | null => simp [wellFormedEvent] at h
  | bool b => simp [wellFormedEvent] at h
  | int n => simp [wellFormedEvent] at h
  | float q => simp [wellFormedEvent] at h
  | str s => simp [wellFormedEvent] at h
  | list xs => simp [wellFormedEvent] at h
  | dict kvs =>
      rw [wellFormedEvent] at h
      cases hd : (lookupVal kvs "data").getD (.dict []) with
      | null => rw [hd] at h; simp at h
      | bool b => rw [hd] at h; simp at h
      | int n => rw [hd] at h; simp at h
      | float q => rw [hd] at h; simp at h
      | str s => rw [hd] at h; simp at h
      | list xs => rw [hd] at h; simp at h
      | dict dkvs =>
          rw [hd] at h
          simp only [classify, pyGetOpt, pyGetD, Except.map, bind,
            Except.bind, pure, Except.pure]
          rw [hd]
          by_cases h1 : isStrVal (lookupVal kvs "event_type")
              "system_log_event" = true
          · simp [h1]
          · by_cases h2 : isStrVal (lookupVal kvs "event_type")
                "trace" = true
            · simp [h1, h2]
            · by_cases h3 : isStrVal (lookupVal kvs "event_type")
                  "state_changed" = true
              · simp only [h1, h2, h3, Bool.false_eq_true, if_false,
                  if_true]
                cases pyOr ((lookupVal dkvs "new_state").getD .null)
                    (.dict []) <;> exact ⟨_, rfl⟩
              · by_cases h4 : isStrVal (lookupVal kvs "event_type")
                    "supervisor_event" = true
                · by_cases h5 : isStrVal (lookupVal dkvs "event")
                      "addon" = true
                  · simp only [h4, h5, Bool.and_self, if_true] at h
                    cases hlog : (lookupVal dkvs "data").getD (.dict []) with
                    | dict lkvs => simp [h1, h2, h3, h4, h5, hlog]
                    | null => rw [hlog] at h; simp at h
                    | bool b => rw [hlog] at h; simp at h
                    | int n => rw [hlog] at h; simp at h
                    | float q => rw [hlog] at h; simp at h
                    | str s => rw [hlog] at h; simp at h
                    | list xs => rw [hlog] at h; simp at h
                  · simp [h1, h2, h3, h4, h5]
                · simp [h1, h2, h3, h4]

theorem c7_classifier_total_amended_witness :
    wellFormedEvent (.dict [("event_type", .str "system_log_event"),
      ("data", .dict [("level", .int 40)])]) = true ∧
    ∃ t, classify (.dict [("event_type", .str "system_log_event"),
      ("data", .dict [("level", .int 40)])]) = .ok t :=
  ⟨rfl,
   c7_classifier_total_amended
     (.dict [("event_type", .str "system_log_event"),
       ("data", .dict [("level", .int 40)])]) rfl⟩

/-- C8: writing a sequence of records whose total encoded size (each line
plus its newline) exceeds the per-segment byte limit rotates the log to
at least one further segment file, and the lines across all segment files
in order are exactly the written records — none lost, none duplicated,
each on exactly one line of exactly one segment. -/
theorem c8_rotation_preserves_lines (maxBytes : Nat) (lines : List String)
    (h : tellBytes lines > maxBytes) :
    allLines (writeAll maxBytes lines) = lines ∧
      2 ≤ segCount (writeAll maxBytes lines) := by
  constructor
  · have := allLines_foldl maxBytes lines freshLogger
    simpa [writeAll, allLines, freshLogger] using this
  · by_contra hlt
    push_neg at hlt
    have hnil : (writeAll maxBytes lines).closedSegs = [] := by
      unfold segCount at hlt
      have : (writeAll maxBytes lines).closedSegs.length = 0 := by omega
      exact List.length_eq_zero.mp this
    unfold writeAll at hnil
    obtain ⟨-, htell, hdisj⟩ :=
      foldl_closedSegs_nil maxBytes lines freshLogger hnil
    rcases hdisj with hempty | hle
    · subst hempty
      simp [tellBytes] at h
    · have h0 : tellBytes freshLogger.current = 0 := by
        simp [freshLogger, tellBytes]
      rw [htell, h0] at hle
      omega

theorem c8_rotation_preserves_lines_witness :
    tellBytes ["abc", "defg"] > 5 ∧
    (allLines (writeAll 5 ["abc", "defg"]) = ["abc", "defg"] ∧
      2 ≤ segCount (writeAll 5 ["abc", "defg"])) :=
  ⟨by decide, c8_rotation_preserves_lines 5 ["abc", "defg"] (by decide)⟩

/-- C9 counterexample: `flush` cancels the window-timer task rather than
waiting for it (problems.py lines 119-122); in the interleaving where the
task is inside the callback at a suspension point, the cancellation aborts
the callback and the batch it had taken from the queue is dropped.  Here
the single added event 0 has been taken by the fired timer; after `flush`
nothing was delivered and the event is gone. -/
theorem c9_flush_drops_running_batch :
    let b := timerFire (addEvent (emptyBatcher Nat) 0)
    (0 ∈ allAdded b) ∧ allAdded (flushB b) = [] ∧
      (flushB b).delivered = [] := by
  decide

/-- C9 amended: `flush` delivers the events still queued in the batcher
exactly once (as one batch) and resets the timer, but it cancels — rather
than waits for — an in-flight window-timer callback, so a batch already
taken by a running callback that is cancelled at a suspension point is
neither delivered nor re-queued. -/
theorem c9_flush_delivers_pending_amended (E : Type) (b : Batcher E) :
    (flushB b).pending = [] ∧
    (flushB b).timer = TimerState.idle ∧
    (flushB b).delivered.flatten = b.delivered.flatten ++ b.pending := by
  unfold flushB
  by_cases hp : b.pending.isEmpty = true
  · rw [if_pos hp]
    simp [List.isEmpty_iff.mp hp]
  · rw [if_neg hp]
    simp

end SolidHA
